import Mathlib

/-!
Shallow embedding of `bevy_reflect`'s dynamic deserialization engine
(`crates/bevy_reflect/src/serde/de/deserializer.rs`).

The serde `Deserializer` together with the per-kind shape visitors
(`StructVisitor`, `TupleStructVisitor`, ..., which live in sibling files)
is modelled as an abstract `Format` record: one field per serde entry
point actually invoked by the dispatch code, returning the container body
the visitor would assemble, or an error.  The thread-local
`TYPE_INFO_STACK` (feature `debug_stack`) is modelled by explicit state
passing, and every externally visible action of the dispatch code is
recorded in an event trace so that "is invoked / is not invoked"
properties are directly statable.
-/

namespace BevyReflectDe

/-- Mirrors the `TypePathTable` accessors used by the dispatch code:
`type_path`, `ident` (optional) and `module_path` (optional). -/
structure TypePathTable where
  path : String
  ident : Option String
  module_path : Option String
deriving DecidableEq, Repr

/-- Mirrors `TypeInfo`: the structural shape of a registered type, one
variant per `ReflectKind`, carrying exactly the metadata the dispatch
code reads (field names, field counts, array capacity, variant names). -/
inductive TypeInfo where
  | structInfo (tpt : TypePathTable) (field_names : List String)
  | tupleStructInfo (tpt : TypePathTable) (field_len : Nat)
  | tupleInfo (tpt : TypePathTable) (field_len : Nat)
  | listInfo (tpt : TypePathTable)
  | arrayInfo (tpt : TypePathTable) (capacity : Nat)
  | mapInfo (tpt : TypePathTable)
  | setInfo (tpt : TypePathTable)
  | enumInfo (tpt : TypePathTable) (variant_names : List String)
  | opaqueInfo (tpt : TypePathTable)
deriving DecidableEq, Repr

/-- The `type_path_table()` accessor. -/
def TypeInfo.type_path_table : TypeInfo → TypePathTable
  | .structInfo tpt _ => tpt
  | .tupleStructInfo tpt _ => tpt
  | .tupleInfo tpt _ => tpt
  | .listInfo tpt => tpt
  | .arrayInfo tpt _ => tpt
  | .mapInfo tpt => tpt
  | .setInfo tpt => tpt
  | .enumInfo tpt _ => tpt
  | .opaqueInfo tpt => tpt

/-- The `type_path()` accessor. -/
def TypeInfo.type_path (info : TypeInfo) : String :=
  info.type_path_table.path

/-- True for every kind the dispatch code reconstructs structurally,
i.e. every kind except `Opaque`. -/
def TypeInfo.is_structural : TypeInfo → Bool
  | .opaqueInfo _ => false
  | _ => true

/-- Mirrors `Box<dyn PartialReflect>` outputs: either a concrete leaf
value (produced by custom deserialize extensions or processors) or a
dynamic container (`DynamicStruct`, `DynamicList`, ...) holding nested
values plus its optional represented-type tag. -/
inductive DynamicValue where
  | leaf (n : Int)
  | dynStruct (fields : List (String × DynamicValue)) (represented : Option TypeInfo)
  | dynTupleStruct (fields : List DynamicValue) (represented : Option TypeInfo)
  | dynTuple (fields : List DynamicValue) (represented : Option TypeInfo)
  | dynList (items : List DynamicValue) (represented : Option TypeInfo)
  | dynArray (items : List DynamicValue) (represented : Option TypeInfo)
  | dynMap (entries : List (DynamicValue × DynamicValue)) (represented : Option TypeInfo)
  | dynSet (items : List DynamicValue) (represented : Option TypeInfo)
  | dynEnum (variant : String) (fields : List DynamicValue) (represented : Option TypeInfo)

/-- The `get_represented_type_info()` accessor: the represented-type tag
of a dynamic container, `none` for leaves. -/
def DynamicValue.represented_type : DynamicValue → Option TypeInfo
  | .leaf _ => none
  | .dynStruct _ r => r
  | .dynTupleStruct _ r => r
  | .dynTuple _ r => r
  | .dynList _ r => r
  | .dynArray _ r => r
  | .dynMap _ r => r
  | .dynSet _ r => r
  | .dynEnum _ _ r => r

/-- Mirrors `serde::de::Error` values produced or propagated by this
file: `invalid_length(n, expected)`, custom messages (from
`make_custom_error`), format/visitor errors (abstract), and the
unregistered-type error raised by path resolution. -/
inductive DeError where
  | invalidLength (len : Nat) (expected : String)
  | custom (msg : String)
  | fmtError (code : Nat)
  | unregisteredType (path : String)
deriving DecidableEq, Repr

/-- Modelled from the spec: `make_custom_error` (in `error_utils.rs`,
not part of the sources here) wraps a message into a custom serde error,
optionally annotated with the diagnostic type chain. -/
def make_custom_error (msg : String) : DeError :=
  .custom msg

/-- Abstraction of the serde `Deserializer` composed with the shape
visitors (the visitor files are siblings of `deserializer.rs` and are
modelled from the spec: each reconstructor consumes one value of its
wire shape and assembles the matching container body, never setting the
represented-type tag itself).  One field per entry-point/visitor pair
the dispatch code invokes; each returns the untagged container body the
visitor built, or fails. -/
structure Format where
  onStruct : String → List String → Except DeError (List (String × DynamicValue))
  onNewtypeStruct : String → Except DeError (List DynamicValue)
  onTupleStruct : String → Nat → Except DeError (List DynamicValue)
  onSeqList : Except DeError (List DynamicValue)
  onTupleArray : Nat → Except DeError (List DynamicValue)
  onMapAccess : Except DeError (List (DynamicValue × DynamicValue))
  onSeqSet : Except DeError (List DynamicValue)
  onTupleTuple : Nat → Except DeError (List DynamicValue)
  onOption : Except DeError (String × List DynamicValue)
  onEnum : String → List String → Except DeError (String × List DynamicValue)

/-- Mirrors `TypeRegistration`: a `TypeInfo` plus the three optional
extension data entries read by the dispatch code.  `Reg` is the type of
the registry view handed to registry-aware deserialize functions (kept
abstract to break the registration/registry reference cycle of the
source, where both sides are behind references). -/
structure TypeRegistration (Reg : Type) where
  type_info : TypeInfo
  reflect_deserialize : Option (Format → Except DeError DynamicValue)
  reflect_deserialize_with_registry : Option (Format → Reg → Except DeError DynamicValue)
  serialization_data : Option Unit

/-- Mirrors `TypeRegistry` as consumed here: lookup by `TypeId`
(modelled as `Nat`, used by `of`), lookup by full type path (used by the
untyped entry point's `TypeRegistrationDeserializer`), and `view`, the
value representing the `&TypeRegistry` reference passed on to
registry-aware deserialize functions. -/
structure TypeRegistry (Reg : Type) where
  view : Reg
  by_type_id : Nat → Option (TypeRegistration Reg)
  by_type_path : String → Option (TypeRegistration Reg)

/-- Mirrors `ReflectDeserializerProcessor`: the `can_deserialize`
predicate and the `deserialize` callback (which receives the erased
deserializer, here the `Format`, and returns an `erased_serde` result
whose error is a message). -/
structure ReflectDeserializerProcessor (Reg : Type) where
  can_deserialize : TypeRegistration Reg → Bool
  deserialize : TypeRegistration Reg → Format → Except String DynamicValue

/-- Observable actions of the dispatch code, in execution order:
debug-stack pushes/pops, processor interrogation and delegation, custom
deserialize extension calls, serde entry-point calls (with their
arguments), and `set_represented_type` calls. -/
inductive Event where
  | pushTypeInfo (info : TypeInfo)
  | popTypeInfo
  | processorCanDeserialize (answer : Bool)
  | processorDeserialize
  | reflectDeserializeCall
  | reflectDeserializeWithRegistryCall
  | formatStruct (name : String) (field_names : List String)
  | formatNewtypeStruct (name : String)
  | formatTupleStruct (name : String) (len : Nat)
  | formatSeqList
  | formatTupleArray (capacity : Nat)
  | formatMap
  | formatSeqSet
  | formatTupleTuple (len : Nat)
  | formatOption
  | formatEnum (name : String) (variant_names : List String)
  | setRepresented (info : TypeInfo)
deriving DecidableEq, Repr

/-- Outcome of one `deserialize` call: success, a serde error, or a Rust
panic (`ident().unwrap()` on a type with no ident). -/
inductive RunResult where
  | ok (value : DynamicValue)
  | err (e : DeError)
  | panicked (msg : String)

/-- Lifts an `Except` produced by an extension or format call into a
`RunResult`. -/
def except_to_run : Except DeError DynamicValue → RunResult
  | .ok v => .ok v
  | .error e => .err e

/-- Whether the processor check of `deserialize` intercepts this
registration: a processor is attached and its `can_deserialize` returns
true. -/
def processor_intercepts {Reg : Type}
    (processor : Option (ReflectDeserializerProcessor Reg))
    (registration : TypeRegistration Reg) : Bool :=
  match processor with
  | some p => p.can_deserialize registration
  | none => false

/-- The `match self.registration.type_info()` block of
`deserialize_internal` (lines 528-654): structural dispatch to the serde
entry point matching the registration's kind, tagging the visitor's
result with this registration's type info on success; `Opaque` is the
terminal missing-strategy error. -/
def type_info_dispatch {Reg : Type} (registration : TypeRegistration Reg)
    (fmt : Format) : RunResult × List Event :=
  match registration.type_info with
  | .structInfo tpt field_names =>
    match tpt.ident with
    | none => (.panicked "called `Option::unwrap()` on a `None` value", [])
    | some name =>
      match fmt.onStruct name field_names with
      | .error e => (.err e, [.formatStruct name field_names])
      | .ok fields =>
        (.ok (.dynStruct fields (some registration.type_info)),
          [.formatStruct name field_names, .setRepresented registration.type_info])
  | .tupleStructInfo tpt field_len =>
    if field_len == 1 && registration.serialization_data.isNone then
      match tpt.ident with
      | none => (.panicked "called `Option::unwrap()` on a `None` value", [])
      | some name =>
        match fmt.onNewtypeStruct name with
        | .error e => (.err e, [.formatNewtypeStruct name])
        | .ok fields =>
          (.ok (.dynTupleStruct fields (some registration.type_info)),
            [.formatNewtypeStruct name, .setRepresented registration.type_info])
    else
      match tpt.ident with
      | none => (.panicked "called `Option::unwrap()` on a `None` value", [])
      | some name =>
        match fmt.onTupleStruct name field_len with
        | .error e => (.err e, [.formatTupleStruct name field_len])
        | .ok fields =>
          (.ok (.dynTupleStruct fields (some registration.type_info)),
            [.formatTupleStruct name field_len, .setRepresented registration.type_info])
  | .listInfo _ =>
    match fmt.onSeqList with
    | .error e => (.err e, [.formatSeqList])
    | .ok items =>
      (.ok (.dynList items (some registration.type_info)),
        [.formatSeqList, .setRepresented registration.type_info])
  | .arrayInfo _ capacity =>
    match fmt.onTupleArray capacity with
    | .error e => (.err e, [.formatTupleArray capacity])
    | .ok items =>
      (.ok (.dynArray items (some registration.type_info)),
        [.formatTupleArray capacity, .setRepresented registration.type_info])
  | .mapInfo _ =>
    match fmt.onMapAccess with
    | .error e => (.err e, [.formatMap])
    | .ok entries =>
      (.ok (.dynMap entries (some registration.type_info)),
        [.formatMap, .setRepresented registration.type_info])
  | .setInfo _ =>
    match fmt.onSeqSet with
    | .error e => (.err e, [.formatSeqSet])
    | .ok items =>
      (.ok (.dynSet items (some registration.type_info)),
        [.formatSeqSet, .setRepresented registration.type_info])
  | .tupleInfo _ field_len =>
    match fmt.onTupleTuple field_len with
    | .error e => (.err e, [.formatTupleTuple field_len])
    | .ok fields =>
      (.ok (.dynTuple fields (some registration.type_info)),
        [.formatTupleTuple field_len, .setRepresented registration.type_info])
  | .enumInfo tpt variant_names =>
    if tpt.module_path == some "core::option" && tpt.ident == some "Option" then
      match fmt.onOption with
      | .error e => (.err e, [.formatOption])
      | .ok (variant, fields) =>
        (.ok (.dynEnum variant fields (some registration.type_info)),
          [.formatOption, .setRepresented registration.type_info])
    else
      match tpt.ident with
      | none => (.panicked "called `Option::unwrap()` on a `None` value", [])
      | some name =>
        match fmt.onEnum name variant_names with
        | .error e => (.err e, [.formatEnum name variant_names])
        | .ok (variant, fields) =>
          (.ok (.dynEnum variant fields (some registration.type_info)),
            [.formatEnum name variant_names, .setRepresented registration.type_info])
  | .opaqueInfo tpt =>
    (.err (make_custom_error
      ("type `" ++ tpt.path ++ "` did not register the `ReflectDeserialize` type data. For certain types, this may need to be registered manually using `register_type_data`")),
      [])

/-- Lines 513-526 of `deserialize_internal`: after the processor check,
try the `ReflectDeserialize` extension, then the
`ReflectDeserializeWithRegistry` extension (handed the registry
reference), else fall through to structural dispatch. -/
def deserialize_after_processor {Reg : Type} (registration : TypeRegistration Reg)
    (registry : TypeRegistry Reg) (fmt : Format) : RunResult × List Event :=
  match registration.reflect_deserialize with
  | some deserialize_reflect =>
    (except_to_run (deserialize_reflect fmt), [.reflectDeserializeCall])
  | none =>
    match registration.reflect_deserialize_with_registry with
    | some deserialize_reflect =>
      (except_to_run (deserialize_reflect fmt registry.view),
        [.reflectDeserializeWithRegistryCall])
    | none => type_info_dispatch registration fmt

/-- The `deserialize_internal` closure (lines 502-655): first the
processor check (which, on interception, delegates entirely to the
processor's `deserialize` callback, mapping its error through
`make_custom_error`), then the extension/structural cascade. -/
def deserialize_internal {Reg : Type} (registration : TypeRegistration Reg)
    (registry : TypeRegistry Reg)
    (processor : Option (ReflectDeserializerProcessor Reg))
    (fmt : Format) : RunResult × List Event :=
  match processor with
  | some p =>
    if p.can_deserialize registration then
      (except_to_run ((p.deserialize registration fmt).mapError make_custom_error),
        [.processorCanDeserialize true, .processorDeserialize])
    else
      match deserialize_after_processor registration registry fmt with
      | (r, evs) => (r, .processorCanDeserialize false :: evs)
  | none => deserialize_after_processor registration registry fmt

/-- Mirrors `TypedReflectDeserializer`: a resolved registration, the
registry, and an optional processor. -/
structure TypedReflectDeserializer (Reg : Type) where
  registration : TypeRegistration Reg
  registry : TypeRegistry Reg
  processor : Option (ReflectDeserializerProcessor Reg)

/-- `TypedReflectDeserializer::new`: no processor; sets the thread-local
`TYPE_INFO_STACK` to a fresh (empty) stack, returned here as the second
component. -/
def TypedReflectDeserializer.new {Reg : Type} (registration : TypeRegistration Reg)
    (registry : TypeRegistry Reg) :
    TypedReflectDeserializer Reg × List TypeInfo :=
  (⟨registration, registry, none⟩, [])

/-- `TypedReflectDeserializer::new_with_processor`: like `new` but with
a processor attached; also resets the thread-local stack. -/
def TypedReflectDeserializer.new_with_processor {Reg : Type}
    (registration : TypeRegistration Reg) (registry : TypeRegistry Reg)
    (processor : ReflectDeserializerProcessor Reg) :
    TypedReflectDeserializer Reg × List TypeInfo :=
  (⟨registration, registry, some processor⟩, [])

/-- `TypedReflectDeserializer::of::<T>`: `T` is modelled by its `TypeId`
(a `Nat`) and its `type_path` string; panics (modelled as `.error`) when
`T` is not registered, else builds a deserializer with no processor. -/
def TypedReflectDeserializer.of {Reg : Type} (type_id : Nat) (t_type_path : String)
    (registry : TypeRegistry Reg) :
    Except String (TypedReflectDeserializer Reg) :=
  match registry.by_type_id type_id with
  | none => .error ("no registration found for type `" ++ t_type_path ++ "`")
  | some registration => .ok ⟨registration, registry, none⟩

/-- `TypedReflectDeserializer::new_internal`: builds a deserializer
without resetting the type info stack. -/
def TypedReflectDeserializer.new_internal {Reg : Type}
    (registration : TypeRegistration Reg) (registry : TypeRegistry Reg)
    (processor : Option (ReflectDeserializerProcessor Reg)) :
    TypedReflectDeserializer Reg :=
  ⟨registration, registry, processor⟩

/-- `<TypedReflectDeserializer as DeserializeSeed>::deserialize` (lines
495-667): with `debug_stack` enabled, push the registration's type info
onto the stack, run `deserialize_internal`, pop, and return the result.
The stack is explicit state; a panic unwinds without popping.  Returns
(result, final stack, event trace). -/
def TypedReflectDeserializer.deserialize {Reg : Type}
    (self : TypedReflectDeserializer Reg) (fmt : Format)
    (stack : List TypeInfo) : RunResult × List TypeInfo × List Event :=
  match deserialize_internal self.registration self.registry self.processor fmt with
  | (.panicked msg, evs) =>
    (.panicked msg, self.registration.type_info :: stack,
      .pushTypeInfo self.registration.type_info :: evs)
  | (r, evs) =>
    (r, stack, .pushTypeInfo self.registration.type_info :: (evs ++ [.popTypeInfo]))

/-- Mirrors `ReflectDeserializer`: the untyped entry point's state. -/
structure ReflectDeserializer (Reg : Type) where
  registry : TypeRegistry Reg
  processor : Option (ReflectDeserializerProcessor Reg)

/-- `ReflectDeserializer::new`. -/
def ReflectDeserializer.new {Reg : Type} (registry : TypeRegistry Reg) :
    ReflectDeserializer Reg :=
  ⟨registry, none⟩

/-- `ReflectDeserializer::new_with_processor`. -/
def ReflectDeserializer.new_with_processor {Reg : Type} (registry : TypeRegistry Reg)
    (processor : ReflectDeserializerProcessor Reg) : ReflectDeserializer Reg :=
  ⟨registry, some processor⟩

/-- `UntypedReflectDeserializerVisitor::visit_map` (lines 309-328): the
outer map's entries are (type path, payload) pairs consumed in order.
No first key is `invalid_length(0)`; the key resolves through the
registry (`TypeRegistrationDeserializer`, modelled from the spec:
resolve the full path, unregistered paths error); the value goes through
the typed engine; any further key after the single consumed entry is
`invalid_length(2)`. -/
def visit_map {Reg : Type} (registry : TypeRegistry Reg)
    (processor : Option (ReflectDeserializerProcessor Reg))
    (stack : List TypeInfo) (entries : List (String × Format)) :
    RunResult × List TypeInfo × List Event :=
  match entries with
  | [] => (.err (.invalidLength 0 "a single entry"), stack, [])
  | (key, value_fmt) :: rest =>
    match registry.by_type_path key with
    | none => (.err (.unregisteredType key), stack, [])
    | some registration =>
      match TypedReflectDeserializer.deserialize ⟨registration, registry, processor⟩
          value_fmt stack with
      | (.ok value, stack1, evs) =>
        match rest with
        | [] => (.ok value, stack1, evs)
        | _ :: _ => (.err (.invalidLength 2 "a single entry"), stack1, evs)
      | other => other

/-- `<ReflectDeserializer as DeserializeSeed>::deserialize` (lines
289-336): drives the outer map visitor. -/
def ReflectDeserializer.deserialize {Reg : Type} (self : ReflectDeserializer Reg)
    (entries : List (String × Format)) (stack : List TypeInfo) :
    RunResult × List TypeInfo × List Event :=
  visit_map self.registry self.processor stack entries

/-- True on the `setRepresented` event. -/
def Event.is_set_represented : Event → Bool
  | .setRepresented _ => true
  | _ => false

/-- True on the `reflectDeserializeCall` event. -/
def Event.is_rd_call : Event → Bool
  | .reflectDeserializeCall => true
  | _ => false

/-- True on the `reflectDeserializeWithRegistryCall` event. -/
def Event.is_rdwr_call : Event → Bool
  | .reflectDeserializeWithRegistryCall => true
  | _ => false

/-- True on every serde entry-point call event (structural shape
reconstruction). -/
def Event.is_format_call : Event → Bool
  | .formatStruct _ _ => true
  | .formatNewtypeStruct _ => true
  | .formatTupleStruct _ _ => true
  | .formatSeqList => true
  | .formatTupleArray _ => true
  | .formatMap => true
  | .formatSeqSet => true
  | .formatTupleTuple _ => true
  | .formatOption => true
  | .formatEnum _ _ => true
  | _ => false

/-- True on the `formatNewtypeStruct` event. -/
def Event.is_newtype_call : Event → Bool
  | .formatNewtypeStruct _ => true
  | _ => false

/-- True on the `formatTupleStruct` event. -/
def Event.is_tuple_struct_call : Event → Bool
  | .formatTupleStruct _ _ => true
  | _ => false

/-- True on the `formatOption` event. -/
def Event.is_option_call : Event → Bool
  | .formatOption => true
  | _ => false

/-- True on the `formatEnum` event. -/
def Event.is_enum_call : Event → Bool
  | .formatEnum _ _ => true
  | _ => false

/-- True when the run succeeded. -/
def run_is_ok : RunResult → Bool
  | .ok _ => true
  | _ => false

/-- True when the run panicked. -/
def run_is_panic : RunResult → Bool
  | .panicked _ => true
  | _ => false

/-- True when an `Except` result is the error (panic) case. -/
def except_is_error {α : Type} : Except String α → Bool
  | .error _ => true
  | .ok _ => false

section Plumbing

variable {Reg : Type}

theorem deserialize_fst (self : TypedReflectDeserializer Reg) (fmt : Format)
    (stack : List TypeInfo) :
    (self.deserialize fmt stack).1 =
      (deserialize_internal self.registration self.registry self.processor fmt).1 := by
  unfold TypedReflectDeserializer.deserialize
  rcases h : deserialize_internal self.registration self.registry self.processor fmt
    with ⟨r, evs⟩
  cases r <;> simp

theorem deserialize_any (self : TypedReflectDeserializer Reg) (fmt : Format)
    (stack : List TypeInfo) (q : Event → Bool)
    (hpush : ∀ i, q (.pushTypeInfo i) = false) (hpop : q .popTypeInfo = false) :
    ((self.deserialize fmt stack).2.2).any q =
      ((deserialize_internal self.registration self.registry self.processor fmt).2).any q := by
  unfold TypedReflectDeserializer.deserialize
  rcases h : deserialize_internal self.registration self.registry self.processor fmt
    with ⟨r, evs⟩
  cases r <;> simp [hpush, hpop]

theorem deserialize_stack_eq (self : TypedReflectDeserializer Reg) (fmt : Format)
    (stack : List TypeInfo)
    (h : run_is_panic (self.deserialize fmt stack).1 = false) :
    (self.deserialize fmt stack).2.1 = stack := by
  unfold TypedReflectDeserializer.deserialize at h ⊢
  rcases hi : deserialize_internal self.registration self.registry self.processor fmt
    with ⟨r, evs⟩
  rw [hi] at h
  cases r <;> simp_all [run_is_panic]

theorem deserialize_head_event (self : TypedReflectDeserializer Reg) (fmt : Format)
    (stack : List TypeInfo) :
    ((self.deserialize fmt stack).2.2).head? =
      some (.pushTypeInfo self.registration.type_info) := by
  unfold TypedReflectDeserializer.deserialize
  rcases h : deserialize_internal self.registration self.registry self.processor fmt
    with ⟨r, evs⟩
  cases r <;> simp

theorem deserialize_internal_fst (registration : TypeRegistration Reg)
    (registry : TypeRegistry Reg)
    (processor : Option (ReflectDeserializerProcessor Reg)) (fmt : Format)
    (hp : processor_intercepts processor registration = false) :
    (deserialize_internal registration registry processor fmt).1 =
      (deserialize_after_processor registration registry fmt).1 := by
  cases processor with
  | none => rfl
  | some p =>
    simp only [processor_intercepts] at hp
    rcases h : deserialize_after_processor registration registry fmt with ⟨r, evs⟩
    simp [deserialize_internal, hp, h]

theorem deserialize_internal_any (registration : TypeRegistration Reg)
    (registry : TypeRegistry Reg)
    (processor : Option (ReflectDeserializerProcessor Reg)) (fmt : Format)
    (q : Event → Bool) (hq : ∀ b, q (.processorCanDeserialize b) = false)
    (hp : processor_intercepts processor registration = false) :
    ((deserialize_internal registration registry processor fmt).2).any q =
      ((deserialize_after_processor registration registry fmt).2).any q := by
  cases processor with
  | none => rfl
  | some p =>
    simp only [processor_intercepts] at hp
    rcases h : deserialize_after_processor registration registry fmt with ⟨r, evs⟩
    simp [deserialize_internal, hp, h, hq]

theorem deserialize_after_processor_eq_dispatch (registration : TypeRegistration Reg)
    (registry : TypeRegistry Reg) (fmt : Format)
    (h1 : registration.reflect_deserialize = none)
    (h2 : registration.reflect_deserialize_with_registry = none) :
    deserialize_after_processor registration registry fmt =
      type_info_dispatch registration fmt := by
  simp [deserialize_after_processor, h1, h2]

theorem deserialize_fst_eq_dispatch (registration : TypeRegistration Reg)
    (registry : TypeRegistry Reg)
    (processor : Option (ReflectDeserializerProcessor Reg)) (fmt : Format)
    (stack : List TypeInfo)
    (hp : processor_intercepts processor registration = false)
    (h1 : registration.reflect_deserialize = none)
    (h2 : registration.reflect_deserialize_with_registry = none) :
    (TypedReflectDeserializer.deserialize ⟨registration, registry, processor⟩ fmt stack).1 =
      (type_info_dispatch registration fmt).1 := by
  rw [deserialize_fst, deserialize_internal_fst _ _ _ _ hp,
    deserialize_after_processor_eq_dispatch _ _ _ h1 h2]

theorem deserialize_any_eq_dispatch (registration : TypeRegistration Reg)
    (registry : TypeRegistry Reg)
    (processor : Option (ReflectDeserializerProcessor Reg)) (fmt : Format)
    (stack : List TypeInfo) (q : Event → Bool)
    (hpush : ∀ i, q (.pushTypeInfo i) = false) (hpop : q .popTypeInfo = false)
    (hq : ∀ b, q (.processorCanDeserialize b) = false)
    (hp : processor_intercepts processor registration = false)
    (h1 : registration.reflect_deserialize = none)
    (h2 : registration.reflect_deserialize_with_registry = none) :
    ((TypedReflectDeserializer.deserialize ⟨registration, registry, processor⟩ fmt stack).2.2).any q =
      ((type_info_dispatch registration fmt).2).any q := by
  rw [deserialize_any _ _ _ _ hpush hpop, deserialize_internal_any _ _ _ _ _ hq hp,
    deserialize_after_processor_eq_dispatch _ _ _ h1 h2]

theorem type_info_dispatch_ok_tag (registration : TypeRegistration Reg) (fmt : Format)
    (v : DynamicValue) (h : (type_info_dispatch registration fmt).1 = .ok v) :
    v.represented_type = some registration.type_info := by
  unfold type_info_dispatch at h
  repeat' split at h
  all_goals simp_all [DynamicValue.represented_type]
  all_goals (cases h; rfl)

theorem type_info_dispatch_set_eq_ok (registration : TypeRegistration Reg) (fmt : Format) :
    ((type_info_dispatch registration fmt).2).any Event.is_set_represented =
      run_is_ok (type_info_dispatch registration fmt).1 := by
  unfold type_info_dispatch
  repeat' split
  all_goals simp [Event.is_set_represented, run_is_ok]

theorem deserialize_intercepted (registration : TypeRegistration Reg)
    (registry : TypeRegistry Reg) (p : ReflectDeserializerProcessor Reg)
    (fmt : Format) (stack : List TypeInfo)
    (hcan : p.can_deserialize registration = true) :
    TypedReflectDeserializer.deserialize ⟨registration, registry, some p⟩ fmt stack =
      (except_to_run ((p.deserialize registration fmt).mapError make_custom_error),
        stack,
        [.pushTypeInfo registration.type_info, .processorCanDeserialize true,
          .processorDeserialize, .popTypeInfo]) := by
  have hi : deserialize_internal registration registry (some p) fmt =
      (except_to_run ((p.deserialize registration fmt).mapError make_custom_error),
        [.processorCanDeserialize true, .processorDeserialize]) := by
    simp [deserialize_internal, hcan]
  unfold TypedReflectDeserializer.deserialize
  rw [hi]
  rcases h : p.deserialize registration fmt with e | v <;>
    simp [except_to_run, Except.mapError, h]

theorem deserialize_rd_case (registration : TypeRegistration Reg)
    (registry : TypeRegistry Reg)
    (processor : Option (ReflectDeserializerProcessor Reg)) (fmt : Format)
    (stack : List TypeInfo) (f : Format → Except DeError DynamicValue)
    (hp : processor_intercepts processor registration = false)
    (hf : registration.reflect_deserialize = some f) :
    (TypedReflectDeserializer.deserialize ⟨registration, registry, processor⟩
        fmt stack).1 = except_to_run (f fmt) ∧
    ∀ q : Event → Bool, (∀ i, q (.pushTypeInfo i) = false) → q .popTypeInfo = false →
      (∀ b, q (.processorCanDeserialize b) = false) →
      q .reflectDeserializeCall = false →
      ((TypedReflectDeserializer.deserialize ⟨registration, registry, processor⟩
        fmt stack).2.2).any q = false := by
  have hafter : deserialize_after_processor registration registry fmt =
      (except_to_run (f fmt), [.reflectDeserializeCall]) := by
    simp [deserialize_after_processor, hf]
  constructor
  · rw [deserialize_fst, deserialize_internal_fst _ _ _ _ hp, hafter]
  · intro q hpush hpop hcd hrd
    rw [deserialize_any _ _ _ _ hpush hpop,
      deserialize_internal_any _ _ _ _ _ hcd hp, hafter]
    simp [hrd]

theorem deserialize_rdwr_case (registration : TypeRegistration Reg)
    (registry : TypeRegistry Reg)
    (processor : Option (ReflectDeserializerProcessor Reg)) (fmt : Format)
    (stack : List TypeInfo) (g : Format → Reg → Except DeError DynamicValue)
    (hp : processor_intercepts processor registration = false)
    (hf : registration.reflect_deserialize = none)
    (hg : registration.reflect_deserialize_with_registry = some g) :
    (TypedReflectDeserializer.deserialize ⟨registration, registry, processor⟩
        fmt stack).1 = except_to_run (g fmt registry.view) ∧
    ∀ q : Event → Bool, (∀ i, q (.pushTypeInfo i) = false) → q .popTypeInfo = false →
      (∀ b, q (.processorCanDeserialize b) = false) →
      q .reflectDeserializeWithRegistryCall = false →
      ((TypedReflectDeserializer.deserialize ⟨registration, registry, processor⟩
        fmt stack).2.2).any q = false := by
  have hafter : deserialize_after_processor registration registry fmt =
      (except_to_run (g fmt registry.view), [.reflectDeserializeWithRegistryCall]) := by
    simp [deserialize_after_processor, hf, hg]
  constructor
  · rw [deserialize_fst, deserialize_internal_fst _ _ _ _ hp, hafter]
  · intro q hpush hpop hcd hrw
    rw [deserialize_any _ _ _ _ hpush hpop,
      deserialize_internal_any _ _ _ _ _ hcd hp, hafter]
    simp [hrw]

theorem deserialize_last_event (self : TypedReflectDeserializer Reg) (fmt : Format)
    (stack : List TypeInfo)
    (h : run_is_panic (self.deserialize fmt stack).1 = false) :
    ((self.deserialize fmt stack).2.2).getLast? = some .popTypeInfo := by
  unfold TypedReflectDeserializer.deserialize at h ⊢
  rcases hi : deserialize_internal self.registration self.registry self.processor fmt
    with ⟨r, evs⟩
  rw [hi] at h
  cases r with
  | panicked m => simp [run_is_panic] at h
  | ok v =>
    show ((.pushTypeInfo self.registration.type_info ::
      (evs ++ [.popTypeInfo])) : List Event).getLast? = _
    rw [← List.cons_append, List.getLast?_concat]
  | err e =>
    show ((.pushTypeInfo self.registration.type_info ::
      (evs ++ [.popTypeInfo])) : List Event).getLast? = _
    rw [← List.cons_append, List.getLast?_concat]

end Plumbing

section Demo

/-- A concrete struct registration (`pkg::Point { value: i32 }`), used to
evaluate the engine on closed inputs. -/
def demo_struct_info : TypeInfo :=
  .structInfo ⟨"pkg::Point", some "Point", some "pkg"⟩ ["value"]

/-- Registration for `demo_struct_info`, no extensions. -/
def demo_struct_reg : TypeRegistration Unit :=
  ⟨demo_struct_info, none, none, none⟩

/-- A single-field tuple-struct registration (`pkg::Wrap(i32)`). -/
def demo_wrap_info : TypeInfo :=
  .tupleStructInfo ⟨"pkg::Wrap", some "Wrap", some "pkg"⟩ 1

/-- Registration for `demo_wrap_info`, no extensions. -/
def demo_wrap_reg : TypeRegistration Unit :=
  ⟨demo_wrap_info, none, none, none⟩

/-- A two-field tuple-struct registration (`pkg::Pair(i32, i32)`). -/
def demo_pair_info : TypeInfo :=
  .tupleStructInfo ⟨"pkg::Pair", some "Pair", some "pkg"⟩ 2

/-- Registration for `demo_pair_info`, no extensions. -/
def demo_pair_reg : TypeRegistration Unit :=
  ⟨demo_pair_info, none, none, none⟩

/-- The built-in optional enum registration (`core::option::Option<i32>`). -/
def demo_option_info : TypeInfo :=
  .enumInfo ⟨"core::option::Option<i32>", some "Option", some "core::option"⟩
    ["None", "Some"]

/-- Registration for `demo_option_info`, no extensions. -/
def demo_option_reg : TypeRegistration Unit :=
  ⟨demo_option_info, none, none, none⟩

/-- An ordinary enum registration (`pkg::Color`). -/
def demo_color_info : TypeInfo :=
  .enumInfo ⟨"pkg::Color", some "Color", some "pkg"⟩ ["Red", "Green"]

/-- Registration for `demo_color_info`, no extensions. -/
def demo_color_reg : TypeRegistration Unit :=
  ⟨demo_color_info, none, none, none⟩

/-- An opaque registration (`pkg::Blob`) with no deserialize strategy. -/
def demo_opaque_info : TypeInfo :=
  .opaqueInfo ⟨"pkg::Blob", some "Blob", some "pkg"⟩

/-- Registration for `demo_opaque_info`, no extensions at all. -/
def demo_opaque_reg : TypeRegistration Unit :=
  ⟨demo_opaque_info, none, none, none⟩

/-- An opaque registration with a plain `ReflectDeserialize` extension. -/
def demo_rd_reg : TypeRegistration Unit :=
  ⟨demo_opaque_info, some (fun _ => .ok (.leaf 9)), none, none⟩

/-- An opaque registration with only a `ReflectDeserializeWithRegistry`
extension. -/
def demo_rdwr_reg : TypeRegistration Unit :=
  ⟨demo_opaque_info, none, some (fun _ _ => .ok (.leaf 10)), none⟩

/-- A concrete registry holding `demo_struct_reg` under `TypeId` 0 and
path `pkg::Point`. -/
def demo_registry : TypeRegistry Unit :=
  ⟨(), fun i => if i == 0 then some demo_struct_reg else none,
    fun p => if p == "pkg::Point" then some demo_struct_reg else none⟩

/-- A processor that intercepts every registration and yields `leaf 42`. -/
def demo_processor : ReflectDeserializerProcessor Unit :=
  ⟨fun _ => true, fun _ _ => .ok (.leaf 42)⟩

/-- A concrete format whose every entry point succeeds with simple
bodies. -/
def demo_fmt : Format where
  onStruct := fun _ _ => .ok [("value", .leaf 7)]
  onNewtypeStruct := fun _ => .ok [.leaf 5]
  onTupleStruct := fun _ n => .ok (List.replicate n (.leaf 1))
  onSeqList := .ok [.leaf 1, .leaf 2]
  onTupleArray := fun n => .ok (List.replicate n (.leaf 0))
  onMapAccess := .ok []
  onSeqSet := .ok []
  onTupleTuple := fun n => .ok (List.replicate n (.leaf 0))
  onOption := .ok ("Some", [.leaf 5])
  onEnum := fun _ _ => .ok ("None", [])

end Demo

/-- Claim C1: for every registration of structural kind Struct,
TupleStruct, Tuple, List, Array, Map, Set, or Enum, when
`TypedReflectDeserializer::deserialize` succeeds via structural dispatch
(no processor interception, no custom deserialize extensions), the
returned dynamic value's represented-type tag equals exactly the
requested registration's type info; on a failing dispatch no
`set_represented_type` call is made, so no tagged value is produced. -/
theorem claim_C1_structural_tag {Reg : Type} (registration : TypeRegistration Reg)
    (registry : TypeRegistry Reg)
    (processor : Option (ReflectDeserializerProcessor Reg)) (fmt : Format)
    (stack : List TypeInfo)
    (hp : processor_intercepts processor registration = false)
    (h1 : registration.reflect_deserialize = none)
    (h2 : registration.reflect_deserialize_with_registry = none)
    (_hk : registration.type_info.is_structural = true) :
    (∀ v, (TypedReflectDeserializer.deserialize ⟨registration, registry, processor⟩
        fmt stack).1 = .ok v →
      v.represented_type = some registration.type_info) ∧
    (∀ e, (TypedReflectDeserializer.deserialize ⟨registration, registry, processor⟩
        fmt stack).1 = .err e →
      ((TypedReflectDeserializer.deserialize ⟨registration, registry, processor⟩
        fmt stack).2.2).any Event.is_set_represented = false) := by
  constructor
  · intro v hv
    rw [deserialize_fst_eq_dispatch _ _ _ _ _ hp h1 h2] at hv
    exact type_info_dispatch_ok_tag _ _ _ hv
  · intro e he
    rw [deserialize_fst_eq_dispatch _ _ _ _ _ hp h1 h2] at he
    rw [deserialize_any_eq_dispatch _ _ _ _ _ _ (fun _ => rfl) rfl (fun _ => rfl) hp h1 h2,
      type_info_dispatch_set_eq_ok, he]
    rfl

/-- Witness for C1: decoding `pkg::Point` from the demo format yields a
dynamic struct tagged as `pkg::Point`. -/
theorem claim_C1_structural_tag_witness :
    DynamicValue.represented_type
      (.dynStruct [("value", .leaf 7)] (some demo_struct_info)) =
      some demo_struct_info :=
  (claim_C1_structural_tag demo_struct_reg demo_registry none demo_fmt []
    rfl rfl rfl rfl).1 _ rfl

/-- Claim C2: when a processor is attached and its `can_deserialize`
predicate accepts the registration, `deserialize` returns the
processor's `deserialize` callback result (error mapped through
`make_custom_error`), and the trace shows that neither custom
deserialize extension nor any structural shape reconstructor runs: the
only events are the stack push, the accepting predicate call, the
processor delegation, and the stack pop. -/
theorem claim_C2_processor_precedence {Reg : Type}
    (registration : TypeRegistration Reg) (registry : TypeRegistry Reg)
    (p : ReflectDeserializerProcessor Reg) (fmt : Format) (stack : List TypeInfo)
    (hcan : p.can_deserialize registration = true) :
    (TypedReflectDeserializer.deserialize ⟨registration, registry, some p⟩
        fmt stack).1 =
      except_to_run ((p.deserialize registration fmt).mapError make_custom_error) ∧
    (TypedReflectDeserializer.deserialize ⟨registration, registry, some p⟩
        fmt stack).2.2 =
      [.pushTypeInfo registration.type_info, .processorCanDeserialize true,
        .processorDeserialize, .popTypeInfo] := by
  have hi : deserialize_internal registration registry (some p) fmt =
      (except_to_run ((p.deserialize registration fmt).mapError make_custom_error),
        [.processorCanDeserialize true, .processorDeserialize]) := by
    simp [deserialize_internal, hcan]
  unfold TypedReflectDeserializer.deserialize
  rw [hi]
  rcases h : p.deserialize registration fmt with e | v <;>
    simp [except_to_run, Except.mapError, h]

/-- Witness for C2: the always-accepting demo processor's output
(`leaf 42`) is returned for `pkg::Point`, with the four-event trace. -/
theorem claim_C2_processor_precedence_witness :
    (TypedReflectDeserializer.deserialize
        ⟨demo_struct_reg, demo_registry, some demo_processor⟩ demo_fmt []).1 =
      except_to_run ((demo_processor.deserialize demo_struct_reg demo_fmt).mapError
        make_custom_error) ∧
    (TypedReflectDeserializer.deserialize
        ⟨demo_struct_reg, demo_registry, some demo_processor⟩ demo_fmt []).2.2 =
      [.pushTypeInfo demo_struct_reg.type_info, .processorCanDeserialize true,
        .processorDeserialize, .popTypeInfo] :=
  claim_C2_processor_precedence demo_struct_reg demo_registry demo_processor
    demo_fmt [] rfl

/-- Claim C6: a registration of Opaque kind with no processor
interception, no `ReflectDeserialize`, and no
`ReflectDeserializeWithRegistry` fails with the terminal
missing-strategy error, for every input format. -/
theorem claim_C6_opaque_missing_strategy {Reg : Type}
    (registration : TypeRegistration Reg) (registry : TypeRegistry Reg)
    (processor : Option (ReflectDeserializerProcessor Reg))
    (stack : List TypeInfo) (tpt : TypePathTable)
    (hp : processor_intercepts processor registration = false)
    (h1 : registration.reflect_deserialize = none)
    (h2 : registration.reflect_deserialize_with_registry = none)
    (hk : registration.type_info = .opaqueInfo tpt) :
    ∀ fmt : Format,
      (TypedReflectDeserializer.deserialize ⟨registration, registry, processor⟩
          fmt stack).1 =
        .err (make_custom_error
          ("type `" ++ tpt.path ++ "` did not register the `ReflectDeserialize` type data. For certain types, this may need to be registered manually using `register_type_data`")) := by
  intro fmt
  rw [deserialize_fst_eq_dispatch _ _ _ _ _ hp h1 h2]
  simp [type_info_dispatch, hk]

/-- Witness for C6: the extension-free opaque registration `pkg::Blob`
errors on the demo format. -/
theorem claim_C6_opaque_missing_strategy_witness :
    (TypedReflectDeserializer.deserialize ⟨demo_opaque_reg, demo_registry, none⟩
        demo_fmt []).1 =
      .err (make_custom_error
        ("type `pkg::Blob` did not register the `ReflectDeserialize` type data. For certain types, this may need to be registered manually using `register_type_data`")) :=
  claim_C6_opaque_missing_strategy demo_opaque_reg demo_registry none [] _
    rfl rfl rfl rfl demo_fmt

/-- Claim C7: for every registration not intercepted by a processor,
dispatch order is fixed: a present `ReflectDeserialize` extension is
invoked and its result returned (with no registry-aware call and no
structural call); otherwise a present `ReflectDeserializeWithRegistry`
extension is invoked with the registry reference and its result
returned (with no plain-extension call and no structural call); only
when neither is present does structural kind dispatch produce the
result. -/
theorem claim_C7_extension_dispatch_order {Reg : Type}
    (registration : TypeRegistration Reg) (registry : TypeRegistry Reg)
    (processor : Option (ReflectDeserializerProcessor Reg)) (fmt : Format)
    (stack : List TypeInfo)
    (hp : processor_intercepts processor registration = false) :
    (∀ f, registration.reflect_deserialize = some f →
      (TypedReflectDeserializer.deserialize ⟨registration, registry, processor⟩
          fmt stack).1 = except_to_run (f fmt) ∧
      ((TypedReflectDeserializer.deserialize ⟨registration, registry, processor⟩
          fmt stack).2.2).any Event.is_rdwr_call = false ∧
      ((TypedReflectDeserializer.deserialize ⟨registration, registry, processor⟩
          fmt stack).2.2).any Event.is_format_call = false) ∧
    (∀ g, registration.reflect_deserialize = none →
      registration.reflect_deserialize_with_registry = some g →
      (TypedReflectDeserializer.deserialize ⟨registration, registry, processor⟩
          fmt stack).1 = except_to_run (g fmt registry.view) ∧
      ((TypedReflectDeserializer.deserialize ⟨registration, registry, processor⟩
          fmt stack).2.2).any Event.is_rd_call = false ∧
      ((TypedReflectDeserializer.deserialize ⟨registration, registry, processor⟩
          fmt stack).2.2).any Event.is_format_call = false) ∧
    (registration.reflect_deserialize = none →
      registration.reflect_deserialize_with_registry = none →
      (TypedReflectDeserializer.deserialize ⟨registration, registry, processor⟩
          fmt stack).1 = (type_info_dispatch registration fmt).1) := by
  refine ⟨?_, ?_, ?_⟩
  · intro f hf
    obtain ⟨hfst, hany⟩ := deserialize_rd_case registration registry processor
      fmt stack f hp hf
    exact ⟨hfst, hany Event.is_rdwr_call (fun _ => rfl) rfl (fun _ => rfl) rfl,
      hany Event.is_format_call (fun _ => rfl) rfl (fun _ => rfl) rfl⟩
  · intro g hf hg
    obtain ⟨hfst, hany⟩ := deserialize_rdwr_case registration registry processor
      fmt stack g hp hf hg
    exact ⟨hfst, hany Event.is_rd_call (fun _ => rfl) rfl (fun _ => rfl) rfl,
      hany Event.is_format_call (fun _ => rfl) rfl (fun _ => rfl) rfl⟩
  · intro hf hg
    exact deserialize_fst_eq_dispatch _ _ _ _ _ hp hf hg

/-- Witness for C7: a registration carrying a plain `ReflectDeserialize`
extension returning `leaf 9` yields exactly that value on the demo
format, with no registry-aware and no structural call. -/
theorem claim_C7_extension_dispatch_order_witness :
    (TypedReflectDeserializer.deserialize ⟨demo_rd_reg, demo_registry, none⟩
        demo_fmt []).1 =
      except_to_run ((fun _ => Except.ok (DynamicValue.leaf 9)) demo_fmt) ∧
    ((TypedReflectDeserializer.deserialize ⟨demo_rd_reg, demo_registry, none⟩
        demo_fmt []).2.2).any Event.is_rdwr_call = false ∧
    ((TypedReflectDeserializer.deserialize ⟨demo_rd_reg, demo_registry, none⟩
        demo_fmt []).2.2).any Event.is_format_call = false :=
  (claim_C7_extension_dispatch_order demo_rd_reg demo_registry none demo_fmt []
    rfl).1 _ rfl

/-- Claim C8: `set_represented_type` happens only under structural
dispatch: results of an intercepting processor, of a plain
`ReflectDeserialize` extension, and of a `ReflectDeserializeWithRegistry`
extension are returned verbatim with no `setRepresented` event in the
trace; conversely a `setRepresented` event in the trace implies that no
processor intercepted and neither extension was present. -/
theorem claim_C8_tag_only_structural {Reg : Type}
    (registration : TypeRegistration Reg) (registry : TypeRegistry Reg)
    (processor : Option (ReflectDeserializerProcessor Reg)) (fmt : Format)
    (stack : List TypeInfo) :
    (∀ p, processor = some p → p.can_deserialize registration = true →
      (TypedReflectDeserializer.deserialize ⟨registration, registry, processor⟩
          fmt stack).1 =
        except_to_run ((p.deserialize registration fmt).mapError make_custom_error) ∧
      ((TypedReflectDeserializer.deserialize ⟨registration, registry, processor⟩
          fmt stack).2.2).any Event.is_set_represented = false) ∧
    (∀ f, processor_intercepts processor registration = false →
      registration.reflect_deserialize = some f →
      (TypedReflectDeserializer.deserialize ⟨registration, registry, processor⟩
          fmt stack).1 = except_to_run (f fmt) ∧
      ((TypedReflectDeserializer.deserialize ⟨registration, registry, processor⟩
          fmt stack).2.2).any Event.is_set_represented = false) ∧
    (∀ g, processor_intercepts processor registration = false →
      registration.reflect_deserialize = none →
      registration.reflect_deserialize_with_registry = some g →
      (TypedReflectDeserializer.deserialize ⟨registration, registry, processor⟩
          fmt stack).1 = except_to_run (g fmt registry.view) ∧
      ((TypedReflectDeserializer.deserialize ⟨registration, registry, processor⟩
          fmt stack).2.2).any Event.is_set_represented = false) ∧
    (((TypedReflectDeserializer.deserialize ⟨registration, registry, processor⟩
        fmt stack).2.2).any Event.is_set_represented = true →
      processor_intercepts processor registration = false ∧
      registration.reflect_deserialize = none ∧
      registration.reflect_deserialize_with_registry = none) := by
  have part1 : ∀ p, processor = some p → p.can_deserialize registration = true →
      (TypedReflectDeserializer.deserialize ⟨registration, registry, processor⟩
          fmt stack).1 =
        except_to_run ((p.deserialize registration fmt).mapError make_custom_error) ∧
      ((TypedReflectDeserializer.deserialize ⟨registration, registry, processor⟩
          fmt stack).2.2).any Event.is_set_represented = false := by
    intro p hpe hcan
    subst hpe
    rw [deserialize_intercepted _ _ _ _ _ hcan]
    exact ⟨rfl, rfl⟩
  have part2 : ∀ f, processor_intercepts processor registration = false →
      registration.reflect_deserialize = some f →
      (TypedReflectDeserializer.deserialize ⟨registration, registry, processor⟩
          fmt stack).1 = except_to_run (f fmt) ∧
      ((TypedReflectDeserializer.deserialize ⟨registration, registry, processor⟩
          fmt stack).2.2).any Event.is_set_represented = false := by
    intro f hp hf
    obtain ⟨hfst, hany⟩ := deserialize_rd_case registration registry processor
      fmt stack f hp hf
    exact ⟨hfst, hany Event.is_set_represented (fun _ => rfl) rfl (fun _ => rfl) rfl⟩
  have part3 : ∀ g, processor_intercepts processor registration = false →
      registration.reflect_deserialize = none →
      registration.reflect_deserialize_with_registry = some g →
      (TypedReflectDeserializer.deserialize ⟨registration, registry, processor⟩
          fmt stack).1 = except_to_run (g fmt registry.view) ∧
      ((TypedReflectDeserializer.deserialize ⟨registration, registry, processor⟩
          fmt stack).2.2).any Event.is_set_represented = false := by
    intro g hp hf hg
    obtain ⟨hfst, hany⟩ := deserialize_rdwr_case registration registry processor
      fmt stack g hp hf hg
    exact ⟨hfst, hany Event.is_set_represented (fun _ => rfl) rfl (fun _ => rfl) rfl⟩
  refine ⟨part1, part2, part3, ?_⟩
  intro hset
  by_cases hPI : processor_intercepts processor registration = true
  · exfalso
    cases processor with
    | none => simp [processor_intercepts] at hPI
    | some p =>
      simp only [processor_intercepts] at hPI
      have := (part1 p rfl hPI).2
      rw [hset] at this
      simp at this
  · have hPI' : processor_intercepts processor registration = false := by
      simpa using hPI
    rcases hf : registration.reflect_deserialize with _ | f
    · rcases hg : registration.reflect_deserialize_with_registry with _ | g
      · exact ⟨hPI', rfl, rfl⟩
      · exfalso
        have := (part3 g hPI' hf hg).2
        rw [hset] at this
        simp at this
    · exfalso
      have := (part2 f hPI' hf).2
      rw [hset] at this
      simp at this

/-- Witness for C8: the intercepting demo processor's result is returned
verbatim for `pkg::Point` and no represented-type tag is set. -/
theorem claim_C8_tag_only_structural_witness :
    (TypedReflectDeserializer.deserialize
        ⟨demo_struct_reg, demo_registry, some demo_processor⟩ demo_fmt []).1 =
      except_to_run ((demo_processor.deserialize demo_struct_reg demo_fmt).mapError
        make_custom_error) ∧
    ((TypedReflectDeserializer.deserialize
        ⟨demo_struct_reg, demo_registry, some demo_processor⟩ demo_fmt []).2.2).any
      Event.is_set_represented = false :=
  (claim_C8_tag_only_structural demo_struct_reg demo_registry
    (some demo_processor) demo_fmt []).1 demo_processor rfl rfl

/-- Claim C4: a tuple-struct registration reaching structural dispatch
with exactly one field and no `SerializationData` extension is decoded
through the newtype entry point (`deserialize_newtype_struct`); in every
other case (field count not one, or a skip-defaults extension attached)
it is decoded through the positional tuple-struct entry point with the
descriptor's field count. -/
theorem claim_C4_tuple_struct_wire_shape {Reg : Type}
    (registration : TypeRegistration Reg) (registry : TypeRegistry Reg)
    (processor : Option (ReflectDeserializerProcessor Reg)) (fmt : Format)
    (stack : List TypeInfo) (tpt : TypePathTable) (field_len : Nat) (name : String)
    (hp : processor_intercepts processor registration = false)
    (h1 : registration.reflect_deserialize = none)
    (h2 : registration.reflect_deserialize_with_registry = none)
    (hti : registration.type_info = .tupleStructInfo tpt field_len)
    (hid : tpt.ident = some name) :
    (field_len = 1 → registration.serialization_data = none →
      (TypedReflectDeserializer.deserialize ⟨registration, registry, processor⟩
          fmt stack).1 =
        except_to_run ((fmt.onNewtypeStruct name).map
          (fun fields => .dynTupleStruct fields (some registration.type_info))) ∧
      ((TypedReflectDeserializer.deserialize ⟨registration, registry, processor⟩
          fmt stack).2.2).any Event.is_newtype_call = true ∧
      ((TypedReflectDeserializer.deserialize ⟨registration, registry, processor⟩
          fmt stack).2.2).any Event.is_tuple_struct_call = false) ∧
    (¬(field_len = 1 ∧ registration.serialization_data = none) →
      (TypedReflectDeserializer.deserialize ⟨registration, registry, processor⟩
          fmt stack).1 =
        except_to_run ((fmt.onTupleStruct name field_len).map
          (fun fields => .dynTupleStruct fields (some registration.type_info))) ∧
      ((TypedReflectDeserializer.deserialize ⟨registration, registry, processor⟩
          fmt stack).2.2).any Event.is_tuple_struct_call = true ∧
      ((TypedReflectDeserializer.deserialize ⟨registration, registry, processor⟩
          fmt stack).2.2).any Event.is_newtype_call = false) := by
  have hfst := deserialize_fst_eq_dispatch registration registry processor fmt stack
    hp h1 h2
  have hanyN := deserialize_any_eq_dispatch registration registry processor fmt stack
    Event.is_newtype_call (fun _ => rfl) rfl (fun _ => rfl) hp h1 h2
  have hanyT := deserialize_any_eq_dispatch registration registry processor fmt stack
    Event.is_tuple_struct_call (fun _ => rfl) rfl (fun _ => rfl) hp h1 h2
  constructor
  · intro hlen hsd
    have hcond : (field_len == 1 && registration.serialization_data.isNone) = true := by
      simp [hlen, hsd]
    have hd : type_info_dispatch registration fmt =
        (except_to_run ((fmt.onNewtypeStruct name).map
          (fun fields => .dynTupleStruct fields (some registration.type_info))),
          .formatNewtypeStruct name ::
            (match fmt.onNewtypeStruct name with
              | .error _ => []
              | .ok _ => [.setRepresented registration.type_info])) := by
      conv_lhs => rw [type_info_dispatch, hti]
      rw [hti]
      simp only [hcond, hid, if_true]
      rcases hnt : fmt.onNewtypeStruct name with e | fields <;>
        simp [except_to_run, Except.map]
    refine ⟨?_, ?_, ?_⟩
    · rw [hfst, hd]
    · rw [hanyN, hd]
      rcases hnt : fmt.onNewtypeStruct name with e | fields <;>
        simp [Event.is_newtype_call]
    · rw [hanyT, hd]
      rcases hnt : fmt.onNewtypeStruct name with e | fields <;>
        simp [Event.is_tuple_struct_call, Event.is_set_represented]
  · intro hne
    have hcond : (field_len == 1 && registration.serialization_data.isNone) = false := by
      by_cases hfl : field_len = 1
      · have hsd : registration.serialization_data ≠ none := fun h => hne ⟨hfl, h⟩
        have hsd' : registration.serialization_data.isNone = false := by
          rcases h : registration.serialization_data with _ | u
          · exact absurd h hsd
          · rfl
        simp [hfl, hsd']
      · simp [beq_iff_eq, hfl]
    have hd : type_info_dispatch registration fmt =
        (except_to_run ((fmt.onTupleStruct name field_len).map
          (fun fields => .dynTupleStruct fields (some registration.type_info))),
          .formatTupleStruct name field_len ::
            (match fmt.onTupleStruct name field_len with
              | .error _ => []
              | .ok _ => [.setRepresented registration.type_info])) := by
      conv_lhs => rw [type_info_dispatch, hti]
      rw [hti]
      simp only [hcond, hid, if_false, Bool.false_eq_true]
      rcases hnt : fmt.onTupleStruct name field_len with e | fields <;>
        simp [except_to_run, Except.map]
    refine ⟨?_, ?_, ?_⟩
    · rw [hfst, hd]
    · rw [hanyT, hd]
      rcases hnt : fmt.onTupleStruct name field_len with e | fields <;>
        simp [Event.is_tuple_struct_call]
    · rw [hanyN, hd]
      rcases hnt : fmt.onTupleStruct name field_len with e | fields <;>
        simp [Event.is_newtype_call, Event.is_set_represented]

/-- Witness for C4: the single-field tuple-struct `pkg::Wrap` with no
skip-defaults extension decodes through the newtype entry point of the
demo format. -/
theorem claim_C4_tuple_struct_wire_shape_witness :
    (TypedReflectDeserializer.deserialize ⟨demo_wrap_reg, demo_registry, none⟩
        demo_fmt []).1 =
      except_to_run ((demo_fmt.onNewtypeStruct "Wrap").map
        (fun fields => .dynTupleStruct fields (some demo_wrap_reg.type_info))) ∧
    ((TypedReflectDeserializer.deserialize ⟨demo_wrap_reg, demo_registry, none⟩
        demo_fmt []).2.2).any Event.is_newtype_call = true ∧
    ((TypedReflectDeserializer.deserialize ⟨demo_wrap_reg, demo_registry, none⟩
        demo_fmt []).2.2).any Event.is_tuple_struct_call = false :=
  (claim_C4_tuple_struct_wire_shape demo_wrap_reg demo_registry none demo_fmt []
    _ 1 "Wrap" rfl rfl rfl rfl rfl).1 rfl rfl

/-- Claim C5: an enum registration reaching structural dispatch whose
descriptor has module path `core::option` and ident `Option` is decoded
through the format's native optional entry point
(`deserialize_option`); every other enum goes through the generic
tagged-union entry point (`deserialize_enum`) with the descriptor's
variant names. -/
theorem claim_C5_enum_option_wire_shape {Reg : Type}
    (registration : TypeRegistration Reg) (registry : TypeRegistry Reg)
    (processor : Option (ReflectDeserializerProcessor Reg)) (fmt : Format)
    (stack : List TypeInfo) (tpt : TypePathTable) (variant_names : List String)
    (hp : processor_intercepts processor registration = false)
    (h1 : registration.reflect_deserialize = none)
    (h2 : registration.reflect_deserialize_with_registry = none)
    (hti : registration.type_info = .enumInfo tpt variant_names) :
    (tpt.module_path = some "core::option" → tpt.ident = some "Option" →
      (TypedReflectDeserializer.deserialize ⟨registration, registry, processor⟩
          fmt stack).1 =
        except_to_run (fmt.onOption.map
          (fun pr => .dynEnum pr.1 pr.2 (some registration.type_info))) ∧
      ((TypedReflectDeserializer.deserialize ⟨registration, registry, processor⟩
          fmt stack).2.2).any Event.is_option_call = true ∧
      ((TypedReflectDeserializer.deserialize ⟨registration, registry, processor⟩
          fmt stack).2.2).any Event.is_enum_call = false) ∧
    (∀ name, ¬(tpt.module_path = some "core::option" ∧ tpt.ident = some "Option") →
      tpt.ident = some name →
      (TypedReflectDeserializer.deserialize ⟨registration, registry, processor⟩
          fmt stack).1 =
        except_to_run ((fmt.onEnum name variant_names).map
          (fun pr => .dynEnum pr.1 pr.2 (some registration.type_info))) ∧
      ((TypedReflectDeserializer.deserialize ⟨registration, registry, processor⟩
          fmt stack).2.2).any Event.is_enum_call = true ∧
      ((TypedReflectDeserializer.deserialize ⟨registration, registry, processor⟩
          fmt stack).2.2).any Event.is_option_call = false) := by
  have hfst := deserialize_fst_eq_dispatch registration registry processor fmt stack
    hp h1 h2
  have hanyO := deserialize_any_eq_dispatch registration registry processor fmt stack
    Event.is_option_call (fun _ => rfl) rfl (fun _ => rfl) hp h1 h2
  have hanyE := deserialize_any_eq_dispatch registration registry processor fmt stack
    Event.is_enum_call (fun _ => rfl) rfl (fun _ => rfl) hp h1 h2
  constructor
  · intro hm hi
    have hcond : (tpt.module_path == some "core::option" &&
        tpt.ident == some "Option") = true := by
      simp [hm, hi]
    have hd : type_info_dispatch registration fmt =
        (except_to_run (fmt.onOption.map
          (fun pr => .dynEnum pr.1 pr.2 (some registration.type_info))),
          .formatOption ::
            (match fmt.onOption with
              | .error _ => []
              | .ok _ => [.setRepresented registration.type_info])) := by
      conv_lhs => rw [type_info_dispatch, hti]
      rw [hti]
      simp only [hcond, if_true]
      rcases hno : fmt.onOption with e | pr
      · simp [except_to_run, Except.map]
      · rcases pr with ⟨variant, fields⟩
        simp [except_to_run, Except.map]
    refine ⟨?_, ?_, ?_⟩
    · rw [hfst, hd]
    · rw [hanyO, hd]
      rcases hno : fmt.onOption with e | pr <;> simp [Event.is_option_call]
    · rw [hanyE, hd]
      rcases hno : fmt.onOption with e | pr <;>
        simp [Event.is_enum_call, Event.is_set_represented]
  · intro name hne hi
    have hcond : (tpt.module_path == some "core::option" &&
        tpt.ident == some "Option") = false := by
      by_cases hm : tpt.module_path = some "core::option"
      · have hio : tpt.ident ≠ some "Option" := fun h => hne ⟨hm, h⟩
        simp [beq_iff_eq, hm, hio]
      · simp [beq_iff_eq, hm]
    have hd : type_info_dispatch registration fmt =
        (except_to_run ((fmt.onEnum name variant_names).map
          (fun pr => .dynEnum pr.1 pr.2 (some registration.type_info))),
          .formatEnum name variant_names ::
            (match fmt.onEnum name variant_names with
              | .error _ => []
              | .ok _ => [.setRepresented registration.type_info])) := by
      conv_lhs => rw [type_info_dispatch, hti]
      rw [hti]
      simp only [hcond, if_false, Bool.false_eq_true]
      simp only [hi]
      rcases hno : fmt.onEnum name variant_names with e | pr
      · simp [except_to_run, Except.map]
      · rcases pr with ⟨variant, fields⟩
        simp [except_to_run, Except.map]
    refine ⟨?_, ?_, ?_⟩
    · rw [hfst, hd]
    · rw [hanyE, hd]
      rcases hno : fmt.onEnum name variant_names with e | pr <;>
        simp [Event.is_enum_call]
    · rw [hanyO, hd]
      rcases hno : fmt.onEnum name variant_names with e | pr <;>
        simp [Event.is_option_call, Event.is_set_represented]

/-- Witness for C5: `core::option::Option<i32>` decodes through the demo
format's optional entry point, never the generic enum entry point. -/
theorem claim_C5_enum_option_wire_shape_witness :
    (TypedReflectDeserializer.deserialize ⟨demo_option_reg, demo_registry, none⟩
        demo_fmt []).1 =
      except_to_run (demo_fmt.onOption.map
        (fun pr => .dynEnum pr.1 pr.2 (some demo_option_reg.type_info))) ∧
    ((TypedReflectDeserializer.deserialize ⟨demo_option_reg, demo_registry, none⟩
        demo_fmt []).2.2).any Event.is_option_call = true ∧
    ((TypedReflectDeserializer.deserialize ⟨demo_option_reg, demo_registry, none⟩
        demo_fmt []).2.2).any Event.is_enum_call = false :=
  (claim_C5_enum_option_wire_shape demo_option_reg demo_registry none demo_fmt []
    _ ["None", "Some"] rfl rfl rfl rfl).1 rfl rfl

/-- Claim C3: the untyped entry point requires exactly one entry: an
empty outer mapping fails with `invalid_length(0)` and produces no
value; a second key present after the single consumed entry is
`invalid_length(2)` even when the first entry deserialized successfully;
and every successful call consumed an input of exactly one entry. -/
theorem claim_C3_untyped_single_entry {Reg : Type} (registry : TypeRegistry Reg)
    (processor : Option (ReflectDeserializerProcessor Reg)) (stack : List TypeInfo) :
    ((visit_map registry processor stack []).1 =
      .err (.invalidLength 0 "a single entry")) ∧
    (∀ key value_fmt rest registration,
      rest ≠ [] →
      registry.by_type_path key = some registration →
      ∀ v, (TypedReflectDeserializer.deserialize ⟨registration, registry, processor⟩
          value_fmt stack).1 = .ok v →
        (visit_map registry processor stack ((key, value_fmt) :: rest)).1 =
          .err (.invalidLength 2 "a single entry")) ∧
    (∀ entries v, (visit_map registry processor stack entries).1 = .ok v →
      entries.length = 1) := by
  refine ⟨rfl, ?_, ?_⟩
  · intro key value_fmt rest registration hrest hkey v hok
    simp only [visit_map]
    rw [hkey]
    rcases hd : TypedReflectDeserializer.deserialize
        ⟨registration, registry, processor⟩ value_fmt stack with ⟨r, stack1, evs⟩
    rw [hd] at hok
    simp only at hok
    subst hok
    cases rest with
    | nil => exact absurd rfl hrest
    | cons b bs => simp [hd]
  · intro entries v hok
    cases entries with
    | nil => simp [visit_map] at hok
    | cons kv rest =>
      rcases kv with ⟨key, value_fmt⟩
      simp only [visit_map] at hok
      rcases hkey : registry.by_type_path key with _ | registration
      · simp [hkey] at hok
      · simp only [hkey] at hok
        rcases hd : TypedReflectDeserializer.deserialize
            ⟨registration, registry, processor⟩ value_fmt stack with ⟨r, stack1, evs⟩
        rw [hd] at hok
        cases r with
        | ok value =>
          cases rest with
          | nil => rfl
          | cons b bs => simp at hok
        | err e => simp at hok
        | panicked m => simp at hok

/-- Witness for C3: a two-entry outer map whose first entry is a valid
`pkg::Point` still fails with the length-2 shape error. -/
theorem claim_C3_untyped_single_entry_witness :
    (visit_map demo_registry none []
        [("pkg::Point", demo_fmt), ("extra", demo_fmt)]).1 =
      .err (.invalidLength 2 "a single entry") :=
  (claim_C3_untyped_single_entry demo_registry none []).2.1 "pkg::Point" demo_fmt
    [("extra", demo_fmt)] demo_struct_reg (by simp) rfl
    (.dynStruct [("value", .leaf 7)] (some demo_struct_info)) rfl

/-- Claim C9: with the diagnostic stack enabled, both typed constructors
initialize an empty stack; every `deserialize` invocation records the
push of the registration's type info as its first action (before the
processor check or any dispatch) and the pop as its last, and on both
success and error outcomes the stack is restored to its value at entry —
hence a session started by a constructor ends with an empty stack. -/
theorem claim_C9_debug_stack_discipline {Reg : Type} :
    (∀ (registration : TypeRegistration Reg) (registry : TypeRegistry Reg)
        (p : ReflectDeserializerProcessor Reg),
      (TypedReflectDeserializer.new registration registry).2 = [] ∧
      (TypedReflectDeserializer.new_with_processor registration registry p).2 = []) ∧
    (∀ (self : TypedReflectDeserializer Reg) (fmt : Format) (stack : List TypeInfo),
      ((self.deserialize fmt stack).2.2).head? =
        some (.pushTypeInfo self.registration.type_info)) ∧
    (∀ (self : TypedReflectDeserializer Reg) (fmt : Format) (stack : List TypeInfo),
      run_is_panic (self.deserialize fmt stack).1 = false →
      (self.deserialize fmt stack).2.1 = stack ∧
      ((self.deserialize fmt stack).2.2).getLast? = some .popTypeInfo) ∧
    (∀ (registration : TypeRegistration Reg) (registry : TypeRegistry Reg)
        (fmt : Format),
      run_is_panic ((TypedReflectDeserializer.new registration registry).1.deserialize
        fmt (TypedReflectDeserializer.new registration registry).2).1 = false →
      ((TypedReflectDeserializer.new registration registry).1.deserialize
        fmt (TypedReflectDeserializer.new registration registry).2).2.1 = []) := by
  refine ⟨fun _ _ _ => ⟨rfl, rfl⟩, deserialize_head_event, ?_, ?_⟩
  · intro self fmt stack h
    exact ⟨deserialize_stack_eq self fmt stack h, deserialize_last_event self fmt stack h⟩
  · intro registration registry fmt h
    exact deserialize_stack_eq _ fmt [] h

/-- Witness for C9: a session over `pkg::Point` starts with the empty
stack installed by `new`, pushes then pops, and ends empty. -/
theorem claim_C9_debug_stack_discipline_witness :
    ((TypedReflectDeserializer.new demo_struct_reg demo_registry).1.deserialize
      demo_fmt (TypedReflectDeserializer.new demo_struct_reg demo_registry).2).2.1 =
      [] :=
  (@claim_C9_debug_stack_discipline Unit).2.2.2 demo_struct_reg
    demo_registry demo_fmt rfl

/-- Claim C10: `TypedReflectDeserializer::of::<T>` panics exactly when
`T`'s `TypeId` has no registration in the registry; when `T` is
registered it returns a deserializer holding `T`'s registration, the
registry, and no processor. -/
theorem claim_C10_of_constructor {Reg : Type} (type_id : Nat) (t_type_path : String)
    (registry : TypeRegistry Reg) :
    (except_is_error (TypedReflectDeserializer.of type_id t_type_path registry) = true ↔
      registry.by_type_id type_id = none) ∧
    (∀ registration, registry.by_type_id type_id = some registration →
      TypedReflectDeserializer.of type_id t_type_path registry =
        .ok ⟨registration, registry, none⟩) := by
  constructor
  · rcases h : registry.by_type_id type_id with _ | registration <;>
      simp [TypedReflectDeserializer.of, h, except_is_error]
  · intro registration h
    simp [TypedReflectDeserializer.of, h]

/-- Witness for C10: `TypeId` 0 resolves to `demo_struct_reg` in the
demo registry, so `of` builds the processor-free deserializer for it. -/
theorem claim_C10_of_constructor_witness :
    TypedReflectDeserializer.of 0 "pkg::Point" demo_registry =
      .ok ⟨demo_struct_reg, demo_registry, none⟩ :=
  (claim_C10_of_constructor 0 "pkg::Point" demo_registry).2 demo_struct_reg rfl

end BevyReflectDe
